import Mathlib

/-!
Shallow embedding of the OPT Observatory data loader
(src/code/data_loader.py) and proofs about its behaviour.

The loader is a thin facade over pandas.  We model:
  * the dataset directory as a finite list of named file entries,
    each carrying both the raw text of the file (used for line
    counting and size) and its parsed tabular content (header and
    string-cell rows, as produced by the opaque CSV parse engine);
  * pandas DataFrames as a column list, an index-label list and a
    row list of string cells;
  * Python exceptions as an error type carrying the exception class
    and its message string;
  * every fallible operation as a function into Except.
Nondeterministic completion order of the parallel worker pool is
modelled by an explicit order parameter: the list of future indices
in the order in which they complete.
-/

/-- Python exception classes that the loader and the library calls it
makes can raise. -/
inductive PyExcType where
  | fileNotFoundError
  | valueError
  | indexError
deriving DecidableEq

/-- A raised Python exception: its class and its message. -/
structure PyErr where
  ty : PyExcType
  msg : String
deriving DecidableEq

/-- One data row: the list of string cells, aligned with the header. -/
abbrev Row := List String

/-- Parsed content of a CSV file, as delivered by the opaque parse
engine: the header and the data rows. -/
structure CsvFile where
  header : List String
  rows : List Row
deriving DecidableEq

/-- A directory entry: file name, raw file text (for size and line
counting) and parsed content (for reads). -/
structure DirEntry where
  fname : String
  raw : String
  content : CsvFile
deriving DecidableEq

/-- The dataset directory: whether it is present on disk, its path
string, and its entries. -/
structure DataDir where
  present : Bool
  path : String
  entries : List DirEntry
deriving DecidableEq

/-- A pandas DataFrame: column names, index labels and rows.  A
freshly read frame has index labels 0, 1, 2, so on; row filtering
keeps the labels of the surviving rows. -/
structure DataFrame where
  cols : List String
  index : List Int
  rows : List Row
deriving DecidableEq

instance exceptDecEq {ε α : Type} [DecidableEq ε] [DecidableEq α] :
    DecidableEq (Except ε α) := fun a b =>
  match a, b with
  | .error e1, .error e2 =>
    if h : e1 = e2 then .isTrue (by rw [h]) else .isFalse (by intro he; cases he; exact h rfl)
  | .error _, .ok _ => .isFalse (by intro he; cases he)
  | .ok _, .error _ => .isFalse (by intro he; cases he)
  | .ok d1, .ok d2 =>
    if h : d1 = d2 then .isTrue (by rw [h]) else .isFalse (by intro he; cases he; exact h rfl)

/-- Whether one string starts with another, computed on character
lists (model of str.startswith used by the filename glob). -/
def strStarts (s pre : String) : Bool := pre.toList.isPrefixOf s.toList

/-- Whether one string ends with another, computed on character
lists (model of str.endswith used by the filename glob). -/
def strEnds (s suf : String) : Bool := suf.toList.isSuffixOf s.toList

/-- Model of the glob pattern cleaned_*_all.csv: the name carries the
literal prefix and suffix and is long enough that a (possibly empty)
middle exists between them. -/
def matchesYearGlob (name : String) : Bool :=
  strStarts name "cleaned_" && strEnds name "_all.csv" && decide (16 ≤ name.toList.length)

/-- Model of pathlib Path.stem: the file name with its final
extension removed (no-op when the name has no dot). -/
def stemOf (name : String) : String :=
  let r := name.toList.reverse
  if r.contains '.' then String.mk ((r.dropWhile (fun c => c ≠ '.')).drop 1).reverse
  else name

/-- Split a character list on underscores, the model of
str.split applied with an underscore separator. -/
def splitUnderscore : List Char → List (List Char)
  | [] => [[]]
  | c :: cs =>
    let r := splitUnderscore cs
    if c = '_' then [] :: r
    else
      match r with
      | [] => [[c]]
      | h :: t => (c :: h) :: t

/-- Parse a nonempty digit string as a natural number; none on any
non-digit character (model of the digits part of Python int parsing). -/
def parseDigits : List Char → Option Nat
  | [] => none
  | cs => cs.foldl
      (fun acc c => acc.bind (fun n => if c.isDigit then some (n * 10 + (c.toNat - 48)) else none))
      (some 0)

/-- Model of Python int applied to a string token: optional leading
minus sign followed by digits, none on anything else. -/
def parsePyInt (cs : List Char) : Option Int :=
  match cs with
  | [] => none
  | c :: rest =>
    if c = '-' then (parseDigits rest).map (fun n => -(n : Int))
    else (parseDigits cs).map (fun n => (n : Int))

/-- Insert an integer into a sorted list keeping it sorted. -/
def insertSorted (x : Int) : List Int → List Int
  | [] => [x]
  | y :: ys => if x ≤ y then x :: y :: ys else y :: insertSorted x ys

/-- Sort a list of integers (model of Python sorted on an int list). -/
def sortInts (xs : List Int) : List Int := xs.foldr insertSorted []

/-- Extract the year from a file name: take the stem, split it on
underscores, parse token 1 as an integer; none on parse failure
(such names are silently skipped). -/
def extractYear (fname : String) : Option Int :=
  ((splitUnderscore (stemOf fname).toList).get? 1).bind parsePyInt

/-- Model of OPTDataLoader get available years: glob the directory
for names matching cleaned_*_all.csv, parse a year out of each
(skipping failures) and sort the years.  The source also sorts the
matching file names before parsing; since the final integer sort
makes the result independent of that order, the embedding omits it. -/
def getAvailableYears (d : DataDir) : List Int :=
  sortInts (((d.entries.map (fun e => e.fname)).filter matchesYearGlob).filterMap extractYear)

/-- The file name the loader expects for a given year. -/
def yearFileName (y : Int) : String := "cleaned_" ++ toString y ++ "_all.csv"

/-- The loader object: the directory it was constructed over and the
available-years list computed once at construction. -/
structure OPTDataLoader where
  data_dir : DataDir
  available_years : List Int
deriving DecidableEq

/-- Model of OPTDataLoader construction: fail with FileNotFoundError
when the directory is absent, otherwise scan it for available years. -/
def OPTDataLoader.init (d : DataDir) : Except PyErr OPTDataLoader :=
  if d.present then .ok ⟨d, getAvailableYears d⟩
  else .error ⟨.fileNotFoundError, "Data directory not found: " ++ d.path⟩

/-- The FileNotFoundError raised when a year has no file; the message
embeds the available-years list exactly as the source f-string does. -/
def fnfErr (y : Int) (avail : List Int) : PyErr :=
  ⟨.fileNotFoundError,
    "No data file found for year " ++ toString y ++ ". Available years: " ++ toString avail⟩

/-- Model of the private get file path method: look the expected file
name up in the directory, raising FileNotFoundError with the
available-years detail when it is absent. -/
def OPTDataLoader.getFilePath (l : OPTDataLoader) (year : Int) : Except PyErr DirEntry :=
  match l.data_dir.entries.find? (fun e => e.fname == yearFileName year) with
  | some e => .ok e
  | none => .error (fnfErr year l.available_years)

/-- Boolean mask over the header positions kept by a usecols
projection (all positions when no projection is given). -/
def colMask (header : List String) (usecols : Option (List String)) : List Bool :=
  match usecols with
  | none => header.map (fun _ => true)
  | some cs => header.map (fun c => cs.contains c)

/-- Keep the entries of a list selected by a boolean mask. -/
def applyMask (mask : List Bool) (r : List String) : List String :=
  ((r.zip mask).filter (fun p => p.2)).map (fun p => p.1)

/-- Dtype hints: per-column cell coercions; a coercion returning none
on a cell models a parse or type failure in the physical read. -/
abbrev DtypeDict := List (String × (String → Option String))

/-- Coerce one cell of a named column under the dtype hints; columns
without a hint are kept unchanged. -/
def coerceCell (dt : DtypeDict) (c : String) (v : String) : Option String :=
  match dt.find? (fun q => q.1 == c) with
  | some q => q.2 v
  | none => some v

/-- Map a fallible function over a list in the Option monad, written
as a direct recursion. -/
def mapOptionList (g : α → Option β) : List α → Option (List β)
  | [] => some []
  | x :: xs =>
    match g x with
    | none => none
    | some y =>
      match mapOptionList g xs with
      | none => none
      | some ys => some (y :: ys)

/-- Coerce a whole row (aligned with the kept columns) under the
dtype hints. -/
def applyDtypeRow (dt : DtypeDict) (cols : List String) (r : Row) : Option Row :=
  mapOptionList (fun p => coerceCell dt p.1 p.2) (cols.zip r)

/-- Map a fallible function over a list in the Except monad, written
as a direct recursion mirroring the source loops: stop at the first
raised exception. -/
def mapExceptList (g : α → Except PyErr β) : List α → Except PyErr (List β)
  | [] => .ok []
  | x :: xs =>
    match g x with
    | .error e => .error e
    | .ok y =>
      match mapExceptList g xs with
      | .error e => .error e
      | .ok ys => .ok (y :: ys)

/-- Coerce all rows under the dtype hints; a failing cell surfaces as
the ValueError pandas raises on a failed dtype coercion. -/
def coerceRows (dt : DtypeDict) (cols : List String) (rs : List Row) : Except PyErr (List Row) :=
  match mapOptionList (applyDtypeRow dt cols) rs with
  | some rs2 => .ok rs2
  | none => .error ⟨.valueError, "could not coerce column values to requested dtype"⟩

/-- Build the DataFrame a physical read returns: the given columns
and rows under a fresh range index. -/
def mkDF (cols : List String) (rows : List Row) : DataFrame :=
  ⟨cols, (List.range rows.length).map Int.ofNat, rows⟩

/-- Projection validation performed by pandas: every requested
usecols name must occur in the header, else a ValueError is raised. -/
def checkUsecols (header : List String) : Option (List String) → Except PyErr Unit
  | none => .ok ()
  | some cs =>
    if cs.all (fun c => header.contains c) then .ok ()
    else .error ⟨.valueError, "Usecols do not match columns"⟩

/-- Model of the pandas read_csv call as the loader uses it: check
the projection against the header, keep the projected columns,
truncate to nrows when given, and coerce cells under the dtype
hints; the result carries a fresh range index. -/
def read_csv (f : CsvFile) (usecols : Option (List String)) (nrows : Option Nat)
    (dtype : Option DtypeDict) : Except PyErr DataFrame :=
  match checkUsecols f.header usecols with
  | .error e => .error e
  | .ok _ =>
    let mask := colMask f.header usecols
    let cols := applyMask mask f.header
    let raw := match nrows with | some n => f.rows.take n | none => f.rows
    match coerceRows (dtype.getD []) cols (raw.map (applyMask mask)) with
    | .error e => .error e
    | .ok rows => .ok (mkDF cols rows)

/-- Pure row-predicate filter: the shape of filter functions the
claims quantify over.  Boolean row selection in pandas keeps the
index labels of the surviving rows. -/
def rowFilter (p : Row → Bool) (df : DataFrame) : DataFrame :=
  let kept := (df.index.zip df.rows).filter (fun q => p q.2)
  ⟨df.cols, kept.map (fun q => q.1), kept.map (fun q => q.2)⟩

/-- Model of load_year: resolve the file, read it with the given
projection, row cap and dtype hints, then apply the filter function
(if any) to the materialized frame. -/
def OPTDataLoader.load_year (l : OPTDataLoader) (year : Int)
    (columns : Option (List String)) (filter_func : Option (DataFrame → DataFrame))
    (nrows : Option Nat) (dtype : Option DtypeDict) : Except PyErr DataFrame :=
  match l.getFilePath year with
  | .error e => .error e
  | .ok entry =>
    match read_csv entry.content columns nrows dtype with
    | .error e => .error e
    | .ok df =>
      .ok (match filter_func with | some f => f df | none => df)

/-- Union of column lists in order of first appearance, the pandas
concat alignment of the non-concatenation axis. -/
def unionCols (ls : List (List String)) : List String :=
  ls.foldl (fun acc cs => acc ++ cs.filter (fun c => !(acc.contains c))) []

/-- Look a cell up in a row by column name; absent columns read as
the missing-value sentinel. -/
def cellAt (cols : List String) (r : Row) (c : String) : String :=
  match (cols.zip r).find? (fun q => q.1 == c) with
  | some q => q.2
  | none => "NaN"

/-- Re-express a row over a target column list, filling absent
columns with the missing-value sentinel. -/
def reindexRow (src : List String) (tgt : List String) (r : Row) : Row :=
  tgt.map (cellAt src r)

/-- Model of pandas concat with ignore_index set: align all frames on
the union of their columns, stack the rows in list order and give the
result a fresh contiguous range index starting at 0. -/
def concatIgnoreIndex (dfs : List DataFrame) : DataFrame :=
  let cols := unionCols (dfs.map (fun df => df.cols))
  let rows := (dfs.map (fun df => df.rows.map (reindexRow df.cols cols))).flatten
  ⟨cols, (List.range rows.length).map Int.ofNat, rows⟩

/-- Model of pandas concat as called by the loader: concatenating an
empty frame list raises a ValueError. -/
def pdConcat (dfs : List DataFrame) : Except PyErr DataFrame :=
  if dfs.isEmpty then .error ⟨.valueError, "No objects to concatenate"⟩
  else .ok (concatIgnoreIndex dfs)

/-- Model of the top-level worker used by the parallel path: read one
file with the projection and dtype hints and apply the filter. -/
def load_year_worker (e : DirEntry) (columns : Option (List String))
    (filter_func : Option (DataFrame → DataFrame)) (dtype : Option DtypeDict) :
    Except PyErr DataFrame :=
  match read_csv e.content columns none dtype with
  | .error er => .error er
  | .ok df => .ok (match filter_func with | some f => f df | none => df)

/-- Result of the future at a given index of the submitted-job list:
the worker run on the corresponding resolved file. -/
def workerAt (entries : List DirEntry) (columns : Option (List String))
    (filter_func : Option (DataFrame → DataFrame)) (dtype : Option DtypeDict)
    (i : Nat) : Except PyErr DataFrame :=
  match entries.get? i with
  | some e => load_year_worker e columns filter_func dtype
  | none => .error ⟨.indexError, "list index out of range"⟩

/-- Model of the private parallel loader: resolve every file path at
submission time in request order, then collect worker results in the
completion order given by the order parameter, re-raising the first
worker failure; the surviving frames are concatenated in completion
order. -/
def OPTDataLoader.loadYearsParallel (l : OPTDataLoader) (years : List Int)
    (columns : Option (List String)) (filter_func : Option (DataFrame → DataFrame))
    (dtype : Option DtypeDict) (order : List Nat) : Except PyErr DataFrame :=
  match mapExceptList (fun y => l.getFilePath y) years with
  | .error e => .error e
  | .ok entries =>
    match mapExceptList (workerAt entries columns filter_func dtype) order with
    | .error e => .error e
    | .ok dfs => pdConcat dfs

/-- Model of load_years: the parallel path is taken exactly when the
switch is on and more than one year is requested; the sequential path
loads each year in request order and concatenates with a fresh index. -/
def OPTDataLoader.load_years (l : OPTDataLoader) (years : List Int)
    (columns : Option (List String)) (filter_func : Option (DataFrame → DataFrame))
    (parallel : Bool) (dtype : Option DtypeDict) (order : List Nat) :
    Except PyErr DataFrame :=
  if parallel && decide (1 < years.length) then
    l.loadYearsParallel years columns filter_func dtype order
  else
    match mapExceptList (fun y => l.load_year y columns filter_func none dtype) years with
    | .error e => .error e
    | .ok dfs => pdConcat dfs

/-- Model of load_all: a multi-year load over the cached
available-years list with the same options forwarded. -/
def OPTDataLoader.load_all (l : OPTDataLoader) (columns : Option (List String))
    (filter_func : Option (DataFrame → DataFrame)) (parallel : Bool)
    (dtype : Option DtypeDict) (order : List Nat) : Except PyErr DataFrame :=
  l.load_years l.available_years columns filter_func parallel dtype order

/-- Fuelled chunk splitter: with positive chunk size k, peel chunks
of k elements off the front while fuel lasts.  Fuel at least the list
length is always enough, since every step consumes at least one
element. -/
def chunkListFuel : Nat → Nat → List α → List (List α)
  | 0, _, _ => []
  | _ + 1, _, [] => []
  | fuel + 1, k, x :: xs =>
    (x :: xs).take k :: chunkListFuel fuel k ((x :: xs).drop k)

/-- Split a list into consecutive chunks of size k (the final chunk
may be shorter); meaningful for positive k only, which is how the
chunked read invokes it. -/
def chunkList (k : Nat) (xs : List α) : List (List α) := chunkListFuel xs.length k xs

/-- Model of the chunked read_csv call: the same physical read, with
its rows and index labels delivered in consecutive chunks of the
requested size; pandas rejects a non-positive chunk size. -/
def read_csv_chunks (f : CsvFile) (usecols : Option (List String)) (k : Nat)
    (dtype : Option DtypeDict) : Except PyErr (List DataFrame) :=
  if k = 0 then .error ⟨.valueError, "chunksize must be a positive integer"⟩
  else
    match read_csv f usecols none dtype with
    | .error e => .error e
    | .ok df =>
      .ok ((chunkList k (df.index.zip df.rows)).map
        (fun p => ⟨df.cols, p.map (fun q => q.1), p.map (fun q => q.2)⟩))

/-- Model of iter_year_chunks: resolve the file, then stream it in
chunks with the given projection and dtype hints (no filter
parameter, no row cap).  The lazily yielded sequence is modelled as
the finite list of all chunks in yield order. -/
def OPTDataLoader.iter_year_chunks (l : OPTDataLoader) (year : Int) (chunksize : Nat)
    (columns : Option (List String)) (dtype : Option DtypeDict) :
    Except PyErr (List DataFrame) :=
  match l.getFilePath year with
  | .error e => .error e
  | .ok entry => read_csv_chunks entry.content columns chunksize dtype

/-- Header-only read of a resolved year, shared by column discovery
and the metadata query. -/
def OPTDataLoader.headerCols (l : OPTDataLoader) (year : Int) :
    Except PyErr (List String) :=
  match l.getFilePath year with
  | .error e => .error e
  | .ok entry =>
    match read_csv entry.content none (some 0) none with
    | .error e => .error e
    | .ok df => .ok df.cols

/-- Model of get_column_names: when no year is given, index the
available-years list at position minus one (an IndexError when the
list is empty), then read just the header of the resolved file. -/
def OPTDataLoader.get_column_names (l : OPTDataLoader) (year : Option Int) :
    Except PyErr (List String) :=
  match year with
  | some y => l.headerCols y
  | none =>
    match l.available_years.getLast? with
    | some y => l.headerCols y
    | none => .error ⟨.indexError, "list index out of range"⟩

/-- Linear congruential step standing in for the opaque seeded
pseudo-random number source behind DataFrame.sample. -/
def lcg (s : Nat) : Nat := (1103515245 * s + 12345) % 2147483648

/-- Deterministic seeded selection of up to n elements without
replacement, the model of the opaque library sampler: each step picks
one remaining element by the current pseudo-random state. -/
def sampleFrom : Nat → Nat → List α → List α
  | _, 0, _ => []
  | _, _ + 1, [] => []
  | s, n + 1, x :: xs =>
    (x :: xs).get ⟨s % (x :: xs).length, Nat.mod_lt s (by simp)⟩ ::
      sampleFrom (lcg s) n ((x :: xs).eraseIdx (s % (x :: xs).length))

/-- Model of DataFrame.sample with a fixed random_state: pick n
index-row pairs without replacement, deterministically in the seed. -/
def pdSample (df : DataFrame) (n : Nat) (seed : Nat) : DataFrame :=
  let picked := sampleFrom seed n (df.index.zip df.rows)
  ⟨df.cols, picked.map (fun q => q.1), picked.map (fun q => q.2)⟩

/-- Model of sample_year: read the whole file (with the optional
projection), then return it unchanged when it has at most n rows and
a fixed-seed sample of exactly n rows otherwise. -/
def OPTDataLoader.sample_year (l : OPTDataLoader) (year : Int) (n : Nat)
    (columns : Option (List String)) : Except PyErr DataFrame :=
  match l.getFilePath year with
  | .error e => .error e
  | .ok entry =>
    match read_csv entry.content columns none none with
    | .error e => .error e
    | .ok df => .ok (if n < df.rows.length then pdSample df n 42 else df)

/-- Number of newline characters in a raw file text. -/
def newlineCount (s : String) : Nat := s.toList.count '\n'

/-- Number of lines Python file iteration yields over a raw text:
every newline ends a line and a trailing fragment without a newline
still counts as one line. -/
def pyLineCount (s : String) : Nat :=
  if s.toList = [] then 0
  else newlineCount s + (if s.toList.getLast? = some '\n' then 0 else 1)

/-- Round the exact quotient of a by positive b to the nearest
integer, ties to even: the model of Python round applied to the exact
value (byte counts over a power of two are exact in binary floating
point, so the float detour of the source loses nothing here). -/
def roundHalfEvenDiv (a b : Int) : Int :=
  let f := Int.fdiv a b
  let r := a - f * b
  if 2 * r < b then f
  else if b < 2 * r then f + 1
  else if f % 2 = 0 then f else f + 1

/-- The record get_year_info returns.  The float field holding the
size in megabytes rounded to two decimal places is modelled exactly
as that value scaled by one hundred, an integer. -/
structure YearInfo where
  year : Int
  file_path : String
  file_size_mb_hundredths : Int
  estimated_rows : Int
  columns : Nat
deriving DecidableEq

/-- Path string of a file inside the dataset directory. -/
def filePathStr (d : DataDir) (fname : String) : String := d.path ++ "/" ++ fname

/-- Model of get_year_info: resolve the file, report its size in
megabytes rounded to two decimals, the Python line count of the raw
text minus one for the header, and the column count from header-only
discovery. -/
def OPTDataLoader.get_year_info (l : OPTDataLoader) (year : Int) :
    Except PyErr YearInfo :=
  match l.getFilePath year with
  | .error e => .error e
  | .ok entry =>
    match l.get_column_names (some year) with
    | .error e => .error e
    | .ok cs =>
      .ok ⟨year, filePathStr l.data_dir entry.fname,
        roundHalfEvenDiv ((entry.raw.utf8ByteSize : Int) * 100) (1024 * 1024),
        (pyLineCount entry.raw : Int) - 1, cs.length⟩

/-- The shapes a quick_load year specifier can take: a string, an
integer, a list of integers, or an unsupported value such as a float. -/
inductive YearSpecifier where
  | pyStr (s : String)
  | pyInt (y : Int)
  | pyList (ys : List Int)
  | pyFloat (q : ℚ)

/-- The ValueError message quick_load raises on an unsupported
specifier shape. -/
def invalidYearsErr : PyErr := ⟨.valueError, "years must be an int, list of ints, or all"⟩

/-- Model of the free function quick_load: construct a loader over
the directory, then dispatch on the specifier shape: the literal all
string to load_all, an integer to load_year, a list to load_years
(parallel by default), anything else to a ValueError. -/
def quick_load (years : YearSpecifier) (columns : Option (List String))
    (filter_func : Option (DataFrame → DataFrame)) (d : DataDir) (order : List Nat) :
    Except PyErr DataFrame :=
  match OPTDataLoader.init d with
  | .error e => .error e
  | .ok loader =>
    match years with
    | .pyStr s =>
      if s = "all" then loader.load_all columns filter_func true none order
      else .error invalidYearsErr
    | .pyInt y => loader.load_year y columns filter_func none none
    | .pyList ys => loader.load_years ys columns filter_func true none order
    | .pyFloat _ => .error invalidYearsErr

/-- Spec-side sequential multi-year load, written from the words of
the claim: load each year with load_year in request order and
concatenate the results in that order under a fresh contiguous row
index starting at 0 (concatenation of zero results being the empty
table). -/
def load_years_seq_spec (l : OPTDataLoader) (years : List Int)
    (columns : Option (List String)) (filter_func : Option (DataFrame → DataFrame))
    (dtype : Option DtypeDict) : Except PyErr DataFrame :=
  match mapExceptList (fun y => l.load_year y columns filter_func none dtype) years with
  | .error e => .error e
  | .ok dfs => .ok (concatIgnoreIndex dfs)

/-- Example file for the year 2020: two columns, three rows. -/
def fileA : CsvFile := ⟨["A", "B"], [["1", "x"], ["2", "y"], ["3", "z"]]⟩

/-- Directory entry holding the 2020 example file. -/
def entA : DirEntry := ⟨"cleaned_2020_all.csv", "A,B\n1,x\n2,y\n3,z\n", fileA⟩

/-- Example file for the year 2021: two columns, two rows. -/
def fileB : CsvFile := ⟨["A", "B"], [["4", "u"], ["5", "v"]]⟩

/-- Directory entry holding the 2021 example file. -/
def entB : DirEntry := ⟨"cleaned_2021_all.csv", "A,B\n4,u\n5,v\n", fileB⟩

/-- Example dataset directory with the 2020 and 2021 files. -/
def dEx : DataDir := ⟨true, "data/cleaned", [entA, entB]⟩

/-- Loader constructed over the example directory, exactly as
construction builds it. -/
def lEx : OPTDataLoader := ⟨dEx, getAvailableYears dEx⟩

/-- The frame the unfiltered full read of the 2020 example file
produces. -/
def dfA : DataFrame := ⟨["A", "B"], [0, 1, 2], [["1", "x"], ["2", "y"], ["3", "z"]]⟩

/-- Example pure row predicate: keep the rows whose first cell is the
string 2. -/
def pEx (r : Row) : Bool := r.head? == some "2"

/-- Example present-but-empty dataset directory. -/
def dEmpty : DataDir := ⟨true, "empty/cleaned", []⟩

/-- Example absent dataset directory. -/
def dAbsent : DataDir := ⟨false, "missing/cleaned", []⟩

/-- Example directory whose single file does not end with a newline:
its raw text has one newline but two lines. -/
def dNoNl : DataDir := ⟨true, "data2/cleaned", [⟨"cleaned_2020_all.csv", "A\nx", ⟨["A"], [["x"]]⟩⟩]⟩

/-- Dtype hints whose coercion fails on every cell of column A, a
concrete way to make a physical read raise. -/
def dtBad : DtypeDict := [("A", fun _ => none)]

theorem mapExceptList_ok_length (g : α → Except PyErr β) :
    ∀ (xs : List α) (ys : List β), mapExceptList g xs = .ok ys → ys.length = xs.length := by
  intro xs
  induction xs with
  | nil => intro ys h; simp [mapExceptList] at h; simp [← h]
  | cons x xs ih =>
    intro ys h
    simp only [mapExceptList] at h
    cases hg : g x with
    | error e => rw [hg] at h; cases h
    | ok y =>
      rw [hg] at h
      cases hr : mapExceptList g xs with
      | error e => rw [hr] at h; cases h
      | ok ys2 =>
        rw [hr] at h
        cases h
        simp [ih ys2 hr]

theorem mapExceptList_error_of_mem (g : α → Except PyErr β) :
    ∀ (xs : List α) (x : α) (e : PyErr), x ∈ xs → g x = .error e →
      ∃ e2, mapExceptList g xs = .error e2 := by
  intro xs
  induction xs with
  | nil => intro x e hx; cases hx
  | cons y ys ih =>
    intro x e hx hg
    simp only [mapExceptList]
    cases hgy : g y with
    | error e2 => exact ⟨e2, rfl⟩
    | ok v =>
      rcases List.mem_cons.mp hx with h1 | h2
      · rw [h1] at hg; rw [hg] at hgy; cases hgy
      · rcases ih x e h2 hg with ⟨e2, he2⟩
        rw [he2]
        exact ⟨e2, rfl⟩

theorem read_csv_ok_index (f : CsvFile) (u : Option (List String)) (n : Option Nat)
    (dt : Option DtypeDict) (df : DataFrame) (h : read_csv f u n dt = .ok df) :
    df.index = (List.range df.rows.length).map Int.ofNat := by
  simp only [read_csv] at h
  split at h
  · cases h
  · split at h
    · cases h
    · cases h
      simp [mkDF]

theorem read_csv_ok_lengths (f : CsvFile) (u : Option (List String)) (n : Option Nat)
    (dt : Option DtypeDict) (df : DataFrame) (h : read_csv f u n dt = .ok df) :
    df.index.length = df.rows.length := by
  rw [read_csv_ok_index f u n dt df h]
  simp

theorem filter_zip_snd {α β} (p : β → Bool) :
    ∀ (as : List α) (bs : List β), as.length = bs.length →
      ((as.zip bs).filter (fun q => p q.2)).map (fun q => q.2) = bs.filter p := by
  intro as
  induction as with
  | nil =>
    intro bs h
    cases bs with
    | nil => simp
    | cons b bs => simp at h
  | cons a as ih =>
    intro bs h
    cases bs with
    | nil => simp at h
    | cons b bs =>
      simp only [List.length_cons, Nat.succ_inj] at h
      simp only [List.zip_cons_cons, List.filter_cons]
      by_cases hb : p b
      · simp [hb, ih bs h]
      · simp [hb, ih bs h]

theorem load_year_none_eq (l : OPTDataLoader) (y : Int) (cols : Option (List String))
    (nrows : Option Nat) (dt : Option DtypeDict) :
    l.load_year y cols none nrows dt =
      (l.getFilePath y).bind (fun en => read_csv en.content cols nrows dt) := by
  simp only [OPTDataLoader.load_year]
  cases hg : l.getFilePath y with
  | error e => simp [Except.bind]
  | ok entry =>
    simp only [Except.bind]
    cases hr : read_csv entry.content cols nrows dt <;> simp

theorem load_year_filter_eq (l : OPTDataLoader) (y : Int) (cols : Option (List String))
    (nrows : Option Nat) (dt : Option DtypeDict) (f : DataFrame → DataFrame)
    (df : DataFrame) (h : l.load_year y cols none nrows dt = .ok df) :
    l.load_year y cols (some f) nrows dt = .ok (f df) := by
  simp only [OPTDataLoader.load_year] at h ⊢
  cases hg : l.getFilePath y with
  | error e => simp [hg] at h
  | ok entry =>
    simp only [hg] at h ⊢
    cases hr : read_csv entry.content cols nrows dt with
    | error e => simp [hr] at h
    | ok df0 =>
      simp only [hr] at h ⊢
      cases h
      rfl

/-- C1: for a year whose file exists and a filter that is a pure row
predicate, load_year with the filter returns exactly the rows of the
unfiltered load for which the predicate holds (keeping their index
labels), and with no filter the returned table is the physical read
of the file unchanged. -/
theorem load_year_filter_spec (l : OPTDataLoader) (y : Int) (cols : Option (List String))
    (nrows : Option Nat) (dt : Option DtypeDict) (p : Row → Bool) (df : DataFrame)
    (h : l.load_year y cols none nrows dt = .ok df) :
    l.load_year y cols (some (rowFilter p)) nrows dt = .ok (rowFilter p df) ∧
    (rowFilter p df).rows = df.rows.filter p ∧
    l.load_year y cols none nrows dt =
      (l.getFilePath y).bind (fun en => read_csv en.content cols nrows dt) := by
  refine ⟨load_year_filter_eq l y cols nrows dt (rowFilter p) df h, ?_, load_year_none_eq l y cols nrows dt⟩
  have hlen : df.index.length = df.rows.length := by
    rw [load_year_none_eq] at h
    cases hg : l.getFilePath y with
    | error e => simp [hg, Except.bind] at h
    | ok entry =>
      simp only [hg, Except.bind] at h
      exact read_csv_ok_lengths entry.content cols nrows dt df h
  simp only [rowFilter]
  exact filter_zip_snd p df.index df.rows hlen

/-- Witness for C1 at the example directory: filtering the 2020 file
by the predicate keeping first cell 2. -/
theorem load_year_filter_spec_witness :
    lEx.load_year 2020 none (some (rowFilter pEx)) none none = .ok (rowFilter pEx dfA) ∧
    (rowFilter pEx dfA).rows = dfA.rows.filter pEx ∧
    lEx.load_year 2020 none none none none =
      (lEx.getFilePath 2020).bind (fun en => read_csv en.content none none none) :=
  load_year_filter_spec lEx 2020 none none none pEx dfA (by decide)

theorem chunkListFuel_nil (fuel k : Nat) : chunkListFuel fuel k ([] : List α) = [] := by
  cases fuel <;> rfl

theorem chunkListFuel_flatten (k : Nat) :
    ∀ (n : Nat) (ys : List α), ys.length ≤ n → (chunkListFuel n (k + 1) ys).flatten = ys := by
  intro n
  induction n with
  | zero =>
    intro ys h
    cases ys with
    | nil => rfl
    | cons y ys => simp at h
  | succ n ih =>
    intro ys h
    cases ys with
    | nil => rfl
    | cons x xs =>
      simp only [chunkListFuel, List.flatten_cons]
      have hd : ((x :: xs).drop (k + 1)).length <= n := by
        simp only [List.length_drop, List.length_cons] at h ⊢
        omega
      rw [ih _ hd, List.take_append_drop]

theorem chunkList_flatten (k : Nat) (hk : 0 < k) (ys : List α) :
    (chunkList k ys).flatten = ys := by
  cases k with
  | zero => cases hk
  | succ k => exact chunkListFuel_flatten k ys.length ys (le_refl _)

theorem chunkListFuel_mem_length_le (k : Nat) :
    ∀ (n : Nat) (ys : List α), ys.length ≤ n →
      ∀ c ∈ chunkListFuel n (k + 1) ys, c.length ≤ k + 1 := by
  intro n
  induction n with
  | zero =>
    intro ys h c hc
    cases ys with
    | nil => simp [chunkListFuel] at hc
    | cons y ys => simp at h
  | succ n ih =>
    intro ys h c hc
    cases ys with
    | nil => simp [chunkListFuel] at hc
    | cons x xs =>
      simp only [chunkListFuel] at hc
      rcases List.mem_cons.mp hc with h1 | h2
      · rw [h1]
        simp only [List.length_take]
        omega
      · have hd : ((x :: xs).drop (k + 1)).length ≤ n := by
          simp only [List.length_drop, List.length_cons] at h ⊢
          omega
        exact ih _ hd c h2

theorem chunkList_mem_length_le (k : Nat) (hk : 0 < k) (ys : List α) :
    ∀ c ∈ chunkList k ys, c.length ≤ k := by
  cases k with
  | zero => cases hk
  | succ k => exact chunkListFuel_mem_length_le k ys.length ys (le_refl _)

theorem chunkListFuel_ne_nil (fuel k : Nat) (x : α) (xs : List α) :
    chunkListFuel (fuel + 1) k (x :: xs) ≠ [] := by
  simp only [chunkListFuel]
  exact List.cons_ne_nil _ _

theorem chunkListFuel_dropLast_length (k : Nat) :
    ∀ (n : Nat) (ys : List α), ys.length ≤ n →
      ∀ c ∈ (chunkListFuel n (k + 1) ys).dropLast, c.length = k + 1 := by
  intro n
  induction n with
  | zero =>
    intro ys h c hc
    cases ys with
    | nil => simp [chunkListFuel] at hc
    | cons y ys => simp at h
  | succ n ih =>
    intro ys h c hc
    cases ys with
    | nil => simp [chunkListFuel] at hc
    | cons x xs =>
      simp only [chunkListFuel] at hc
      cases hdrop : (x :: xs).drop (k + 1) with
      | nil =>
        rw [hdrop, chunkListFuel_nil] at hc
        simp at hc
      | cons z zs =>
        rw [hdrop] at hc
        cases n with
        | zero =>
          exfalso
          have hzl : ((x :: xs).drop (k + 1)).length = zs.length + 1 := by rw [hdrop]; rfl
          simp only [List.length_drop, List.length_cons] at hzl h
          omega
        | succ m =>
          rw [List.dropLast_cons_of_ne_nil (chunkListFuel_ne_nil m (k + 1) z zs)] at hc
          rcases List.mem_cons.mp hc with h1 | h2
          · have hzl : ((x :: xs).drop (k + 1)).length = zs.length + 1 := by rw [hdrop]; rfl
            simp only [List.length_drop] at hzl
            rw [h1]
            simp only [List.length_take]
            omega
          · have hd : (z :: zs).length ≤ m + 1 := by
              have hzl : ((x :: xs).drop (k + 1)).length = zs.length + 1 := by rw [hdrop]; rfl
              simp only [List.length_drop, List.length_cons] at hzl h ⊢
              omega
            exact ih (z :: zs) hd c h2

theorem chunkList_dropLast_length (k : Nat) (hk : 0 < k) (ys : List α) :
    ∀ c ∈ (chunkList k ys).dropLast, c.length = k := by
  cases k with
  | zero => cases hk
  | succ k => exact chunkListFuel_dropLast_length k ys.length ys (le_refl _)

theorem dropLast_map (f : α → β) : ∀ (l : List α), (l.map f).dropLast = l.dropLast.map f := by
  intro l
  induction l with
  | nil => rfl
  | cons x xs ih =>
    cases xs with
    | nil => rfl
    | cons y ys =>
      simp only [List.map_cons, List.dropLast_cons₂]
      rw [← List.map_cons f y ys, ih]

/-- C2: for a year whose file exists and a positive chunk size, the
chunked iteration yields a finite list of frames all of exactly k
rows except possibly the last, and concatenating the chunks in yield
order reproduces the unfiltered load_year with the same projection
and dtype hints: same columns, same rows, same index labels, same
order. -/
theorem iter_year_chunks_spec (l : OPTDataLoader) (y : Int) (k : Nat)
    (cols : Option (List String)) (dt : Option DtypeDict) (df : DataFrame)
    (chunks : List DataFrame) (hk : 0 < k)
    (hdf : l.load_year y cols none none dt = .ok df)
    (hch : l.iter_year_chunks y k cols dt = .ok chunks) :
    (∀ c ∈ chunks, c.cols = df.cols) ∧
    (chunks.map (fun c => c.rows)).flatten = df.rows ∧
    (chunks.map (fun c => c.index)).flatten = df.index ∧
    (∀ c ∈ chunks.dropLast, c.rows.length = k) ∧
    (∀ c ∈ chunks, c.rows.length ≤ k) := by
  rw [load_year_none_eq] at hdf
  simp only [OPTDataLoader.iter_year_chunks] at hch
  cases hg : l.getFilePath y with
  | error e => simp [hg, Except.bind] at hdf
  | ok entry =>
    simp only [hg, Except.bind] at hdf hch
    simp only [read_csv_chunks] at hch
    rw [if_neg (Nat.pos_iff_ne_zero.mp hk), hdf] at hch
    cases hch
    have hlen := read_csv_ok_lengths entry.content cols none dt df hdf
    have hzfst : (df.index.zip df.rows).map (fun q => q.1) = df.index :=
      List.map_fst_zip df.index df.rows (le_of_eq hlen)
    have hzsnd : (df.index.zip df.rows).map (fun q => q.2) = df.rows :=
      List.map_snd_zip df.index df.rows (le_of_eq hlen.symm)
    refine ⟨?_, ?_, ?_, ?_, ?_⟩
    · intro c hc
      rcases List.mem_map.mp hc with ⟨p, _, rfl⟩
      rfl
    · rw [List.map_map]
      have : (fun c => DataFrame.rows c) ∘
          (fun p : List (Int × Row) =>
            (⟨df.cols, p.map (fun q => q.1), p.map (fun q => q.2)⟩ : DataFrame)) =
          List.map (fun q : Int × Row => q.2) := rfl
      rw [this, ← List.map_flatten, chunkList_flatten k hk, hzsnd]
    · rw [List.map_map]
      have : (fun c => DataFrame.index c) ∘
          (fun p : List (Int × Row) =>
            (⟨df.cols, p.map (fun q => q.1), p.map (fun q => q.2)⟩ : DataFrame)) =
          List.map (fun q : Int × Row => q.1) := rfl
      rw [this, ← List.map_flatten, chunkList_flatten k hk, hzfst]
    · intro c hc
      rw [dropLast_map] at hc
      rcases List.mem_map.mp hc with ⟨p, hp, rfl⟩
      simp only [List.length_map]
      exact chunkList_dropLast_length k hk (df.index.zip df.rows) p hp
    · intro c hc
      rcases List.mem_map.mp hc with ⟨p, hp, rfl⟩
      simp only [List.length_map]
      exact chunkList_mem_length_le k hk (df.index.zip df.rows) p hp

/-- Witness for C2 at the example directory: the 2020 file in chunks
of two rows. -/
theorem iter_year_chunks_spec_witness :
    (∀ c ∈ [(⟨["A", "B"], [0, 1], [["1", "x"], ["2", "y"]]⟩ : DataFrame),
        ⟨["A", "B"], [2], [["3", "z"]]⟩], c.cols = dfA.cols) ∧
    (([(⟨["A", "B"], [0, 1], [["1", "x"], ["2", "y"]]⟩ : DataFrame),
        ⟨["A", "B"], [2], [["3", "z"]]⟩].map (fun c => c.rows)).flatten = dfA.rows) ∧
    (([(⟨["A", "B"], [0, 1], [["1", "x"], ["2", "y"]]⟩ : DataFrame),
        ⟨["A", "B"], [2], [["3", "z"]]⟩].map (fun c => c.index)).flatten = dfA.index) ∧
    (∀ c ∈ [(⟨["A", "B"], [0, 1], [["1", "x"], ["2", "y"]]⟩ : DataFrame),
        ⟨["A", "B"], [2], [["3", "z"]]⟩].dropLast, c.rows.length = 2) ∧
    (∀ c ∈ [(⟨["A", "B"], [0, 1], [["1", "x"], ["2", "y"]]⟩ : DataFrame),
        ⟨["A", "B"], [2], [["3", "z"]]⟩], c.rows.length ≤ 2) :=
  iter_year_chunks_spec lEx 2020 2 none none dfA
    [⟨["A", "B"], [0, 1], [["1", "x"], ["2", "y"]]⟩, ⟨["A", "B"], [2], [["3", "z"]]⟩]
    (by decide) (by decide) (by decide)

theorem init_ok_eq (d : DataDir) (l : OPTDataLoader)
    (hinit : OPTDataLoader.init d = .ok l) : l = ⟨d, getAvailableYears d⟩ := by
  simp only [OPTDataLoader.init] at hinit
  split at hinit
  · cases hinit; rfl
  · cases hinit

/-- C3 counterexample: on the empty list of years (all of whose files
vacuously exist) the sequential multi-year load raises the ValueError
of concatenating zero frames, while the claim as stated promises the
empty concatenation result. -/
theorem load_years_empty_cex :
    lEx.load_years [] none none false none [] =
      .error ⟨.valueError, "No objects to concatenate"⟩ ∧
    load_years_seq_spec lEx [] none none none = .ok (concatIgnoreIndex []) ∧
    lEx.load_years [] none none false none [] ≠ load_years_seq_spec lEx [] none none none := by
  exact ⟨by decide, by decide, by decide⟩

/-- C3 (amended): for every nonempty list of years, load_years with
the parallel switch off equals loading each year with load_year in
request order and concatenating the results in that order; the
completion-order parameter is irrelevant on this path and every
successful result carries a fresh contiguous row index starting at
0. -/
theorem load_years_sequential_spec (l : OPTDataLoader) (years : List Int)
    (cols : Option (List String)) (f : Option (DataFrame → DataFrame))
    (dt : Option DtypeDict) (order1 order2 : List Nat)
    (hne : years ≠ []) :
    l.load_years years cols f false dt order1 = load_years_seq_spec l years cols f dt ∧
    l.load_years years cols f false dt order1 = l.load_years years cols f false dt order2 ∧
    (∀ df, l.load_years years cols f false dt order1 = .ok df →
      df.index = (List.range df.rows.length).map Int.ofNat) := by
  have hmain : l.load_years years cols f false dt order1 =
      load_years_seq_spec l years cols f dt := by
    simp only [OPTDataLoader.load_years, load_years_seq_spec, Bool.false_and,
      Bool.false_eq_true, if_false]
    cases hm : mapExceptList (fun y => l.load_year y cols f none dt) years with
    | error e => rfl
    | ok dfs =>
      simp only [pdConcat]
      rw [if_neg]
      intro hemp
      have hlen := mapExceptList_ok_length _ years dfs hm
      rw [List.isEmpty_iff] at hemp
      rw [hemp] at hlen
      exact hne (List.eq_nil_of_length_eq_zero hlen.symm)
  have horder : l.load_years years cols f false dt order1 =
      l.load_years years cols f false dt order2 := by
    simp only [OPTDataLoader.load_years, Bool.false_and, Bool.false_eq_true, if_false]
  refine ⟨hmain, horder, ?_⟩
  intro df hdf
  rw [hmain] at hdf
  simp only [load_years_seq_spec] at hdf
  cases hm : mapExceptList (fun y => l.load_year y cols f none dt) years with
  | error e => rw [hm] at hdf; cases hdf
  | ok dfs =>
    rw [hm] at hdf
    cases hdf
    rfl

/-- Witness for the amended C3 at the example directory over the two
available years. -/
theorem load_years_sequential_spec_witness :
    lEx.load_years [2020, 2021] none none false none [] =
      load_years_seq_spec lEx [2020, 2021] none none none ∧
    lEx.load_years [2020, 2021] none none false none [] =
      lEx.load_years [2020, 2021] none none false none [1, 0] ∧
    (∀ df, lEx.load_years [2020, 2021] none none false none [] = .ok df →
      df.index = (List.range df.rows.length).map Int.ofNat) :=
  load_years_sequential_spec lEx [2020, 2021] none none none [] [1, 0] (by decide)

/-- C4: in a multi-year parallel load whose submissions all resolve,
if the worker of some submitted future fails then the whole operation
returns an error and no table, for every completion order that visits
every submitted future: partial results from completed workers are
discarded. -/
theorem parallel_worker_failure_aborts (l : OPTDataLoader) (years : List Int)
    (cols : Option (List String)) (f : Option (DataFrame → DataFrame))
    (dt : Option DtypeDict) (order : List Nat) (entries : List DirEntry)
    (i : Nat) (e : PyErr)
    (hord : ∀ j, j < years.length → j ∈ order)
    (hres : mapExceptList (fun y => l.getFilePath y) years = .ok entries)
    (hi : i < years.length)
    (hw : workerAt entries cols f dt i = .error e) :
    ∃ e2, l.loadYearsParallel years cols f dt order = .error e2 := by
  rcases mapExceptList_error_of_mem (workerAt entries cols f dt) order i e
    (hord i hi) hw with ⟨e2, he2⟩
  refine ⟨e2, ?_⟩
  simp only [OPTDataLoader.loadYearsParallel, hres, he2]

/-- Witness for C4: a dtype whose coercion fails on column A makes
both workers raise; with completion order listing the second future
first, the parallel load over the example directory errors. -/
theorem parallel_worker_failure_aborts_witness :
    ∃ e2, lEx.loadYearsParallel [2020, 2021] none none (some dtBad) [1, 0] = .error e2 :=
  parallel_worker_failure_aborts lEx [2020, 2021] none none (some dtBad) [1, 0]
    [entA, entB] 0 ⟨.valueError, "could not coerce column values to requested dtype"⟩
    (by decide) (by decide) (by decide) (by decide)

/-- C5: quick_load dispatches on the specifier shape: the literal all
string to load_all, a single integer to load_year, a list to
load_years (parallel by default), each with the same column, filter
and directory options forwarded; a float, or any string other than
the all literal, raises the ValueError the spec names
InvalidArgument. -/
theorem quick_load_dispatch (d : DataDir) (cols : Option (List String))
    (f : Option (DataFrame → DataFrame)) (order : List Nat) (y : Int)
    (ys : List Int) (q : ℚ) (s : String) (l : OPTDataLoader)
    (hinit : OPTDataLoader.init d = .ok l) (hs : s ≠ "all") :
    quick_load (.pyStr "all") cols f d order = l.load_all cols f true none order ∧
    quick_load (.pyInt y) cols f d order = l.load_year y cols f none none ∧
    quick_load (.pyList ys) cols f d order = l.load_years ys cols f true none order ∧
    quick_load (.pyFloat q) cols f d order = .error invalidYearsErr ∧
    quick_load (.pyStr s) cols f d order = .error invalidYearsErr := by
  have h1 : quick_load (.pyStr "all") cols f d order = l.load_all cols f true none order := by
    simp [quick_load, hinit]
  have h2 : quick_load (.pyInt y) cols f d order = l.load_year y cols f none none := by
    simp only [quick_load, hinit]
  have h3 : quick_load (.pyList ys) cols f d order = l.load_years ys cols f true none order := by
    simp only [quick_load, hinit]
  have h4 : quick_load (.pyFloat q) cols f d order = .error invalidYearsErr := by
    simp only [quick_load, hinit]
  have h5 : quick_load (.pyStr s) cols f d order = .error invalidYearsErr := by
    simp only [quick_load, hinit]
    rw [if_neg hs]
  exact ⟨h1, h2, h3, h4, h5⟩

/-- Witness for C5 at the example directory: each specifier shape,
including a float and a non-all string. -/
theorem quick_load_dispatch_witness :
    quick_load (.pyStr "all") none none dEx [] = lEx.load_all none none true none [] ∧
    quick_load (.pyInt 2020) none none dEx [] = lEx.load_year 2020 none none none none ∧
    quick_load (.pyList [2020]) none none dEx [] = lEx.load_years [2020] none none true none [] ∧
    quick_load (.pyFloat (1 / 2)) none none dEx [] = .error invalidYearsErr ∧
    quick_load (.pyStr "2020") none none dEx [] = .error invalidYearsErr :=
  quick_load_dispatch dEx none none [] 2020 [2020] (1 / 2) "2020" lEx rfl (by decide)

theorem sampleFrom_length (n : Nat) : ∀ (s : Nat) (xs : List α),
    (sampleFrom s n xs).length = min n xs.length := by
  induction n with
  | zero => intro s xs; simp [sampleFrom]
  | succ n ih =>
    intro s xs
    cases xs with
    | nil => simp [sampleFrom]
    | cons x xs =>
      simp only [sampleFrom, ih, List.length_eraseIdx, List.length_cons]
      rw [if_pos (Nat.mod_lt s (Nat.succ_pos xs.length))]
      omega

theorem sampleFrom_subset (n : Nat) : ∀ (s : Nat) (xs : List α) (a : α),
    a ∈ sampleFrom s n xs → a ∈ xs := by
  induction n with
  | zero => intro s xs a ha; simp [sampleFrom] at ha
  | succ n ih =>
    intro s xs a ha
    cases xs with
    | nil => simp [sampleFrom] at ha
    | cons x xs =>
      simp only [sampleFrom] at ha
      rcases List.mem_cons.mp ha with h1 | h2
      · rw [h1]; exact List.get_mem _ _ _
      · exact List.eraseIdx_subset _ _ (ih _ _ a h2)

/-- C6: sample_year returns the full table unchanged when it has at
most n rows, and otherwise exactly n rows all drawn from the full
table; the fixed-seed sampler is embedded as a pure function, so
repeated calls with the same inputs coincide, stated as uniqueness of
the successful result. -/
theorem sample_year_spec (l : OPTDataLoader) (y : Int) (n : Nat)
    (cols : Option (List String)) (df s : DataFrame)
    (hdf : l.load_year y cols none none none = .ok df)
    (hs : l.sample_year y n cols = .ok s) :
    (df.rows.length ≤ n → s = df) ∧
    (n < df.rows.length → s.rows.length = n ∧ ∀ r ∈ s.rows, r ∈ df.rows) ∧
    (∀ s2, l.sample_year y n cols = .ok s2 → s2 = s) := by
  rw [load_year_none_eq] at hdf
  simp only [OPTDataLoader.sample_year] at hs
  cases hg : l.getFilePath y with
  | error e => simp [hg, Except.bind] at hdf
  | ok entry =>
    simp only [hg, Except.bind] at hdf
    simp only [hg, hdf] at hs
    cases hs
    refine ⟨?_, ?_, ?_⟩
    · intro hle
      rw [if_neg (by omega)]
    · intro hlt
      rw [if_pos hlt]
      constructor
      · have hlen := read_csv_ok_lengths entry.content cols none none df hdf
        simp only [pdSample, List.length_map, sampleFrom_length, List.length_zip]
        omega
      · intro r hr
        simp only [pdSample] at hr
        rcases List.mem_map.mp hr with ⟨⟨a, b⟩, hq, rfl⟩
        exact (List.of_mem_zip (sampleFrom_subset n 42 (df.index.zip df.rows) (a, b) hq)).2
    · intro s2 hs2
      simp only [OPTDataLoader.sample_year, hg, hdf] at hs2
      cases hs2
      rfl

/-- Witness for C6: sampling two of the three rows of the 2020
example file. -/
theorem sample_year_spec_witness :
    (dfA.rows.length ≤ 2 →
      (⟨["A", "B"], [0, 2], [["1", "x"], ["3", "z"]]⟩ : DataFrame) = dfA) ∧
    (2 < dfA.rows.length →
      (⟨["A", "B"], [0, 2], [["1", "x"], ["3", "z"]]⟩ : DataFrame).rows.length = 2 ∧
      ∀ r ∈ (⟨["A", "B"], [0, 2], [["1", "x"], ["3", "z"]]⟩ : DataFrame).rows, r ∈ dfA.rows) ∧
    (∀ s2, lEx.sample_year 2020 2 none = .ok s2 →
      s2 = ⟨["A", "B"], [0, 2], [["1", "x"], ["3", "z"]]⟩) :=
  sample_year_spec lEx 2020 2 none dfA ⟨["A", "B"], [0, 2], [["1", "x"], ["3", "z"]]⟩
    (by decide) (by decide)

/-- C7: for a year with no corresponding file in the directory, every
read operation fails with the FileNotFoundError whose message embeds
exactly the available-years list computed at construction time. -/
theorem missing_year_ops_fail (d : DataDir) (l : OPTDataLoader) (y : Int)
    (cols : Option (List String)) (f : Option (DataFrame → DataFrame))
    (nrows : Option Nat) (dt : Option DtypeDict) (k n : Nat) (parallel : Bool)
    (order : List Nat)
    (hinit : OPTDataLoader.init d = .ok l)
    (hmiss : d.entries.find? (fun en => en.fname == yearFileName y) = none) :
    l.available_years = getAvailableYears d ∧
    l.load_year y cols f nrows dt = .error (fnfErr y (getAvailableYears d)) ∧
    l.load_years [y] cols f parallel dt order = .error (fnfErr y (getAvailableYears d)) ∧
    l.iter_year_chunks y k cols dt = .error (fnfErr y (getAvailableYears d)) ∧
    l.sample_year y n cols = .error (fnfErr y (getAvailableYears d)) ∧
    l.get_year_info y = .error (fnfErr y (getAvailableYears d)) ∧
    l.get_column_names (some y) = .error (fnfErr y (getAvailableYears d)) := by
  have hl := init_ok_eq d l hinit
  subst hl
  have hgf : OPTDataLoader.getFilePath ⟨d, getAvailableYears d⟩ y =
      .error (fnfErr y (getAvailableYears d)) := by
    simp only [OPTDataLoader.getFilePath, hmiss]
  refine ⟨rfl, ?_, ?_, ?_, ?_, ?_, ?_⟩
  · simp [OPTDataLoader.load_year, hgf]
  · simp only [OPTDataLoader.load_years]
    rw [if_neg (by simp)]
    simp [mapExceptList, OPTDataLoader.load_year, hgf]
  · simp [OPTDataLoader.iter_year_chunks, hgf]
  · simp [OPTDataLoader.sample_year, hgf]
  · simp [OPTDataLoader.get_year_info, hgf]
  · simp [OPTDataLoader.get_column_names, OPTDataLoader.headerCols, hgf]

/-- Witness for C7: the year 2025 has no file in the example
directory. -/
theorem missing_year_ops_fail_witness :
    lEx.available_years = getAvailableYears dEx ∧
    lEx.load_year 2025 none none none none = .error (fnfErr 2025 (getAvailableYears dEx)) ∧
    lEx.load_years [2025] none none true none [] =
      .error (fnfErr 2025 (getAvailableYears dEx)) ∧
    lEx.iter_year_chunks 2025 3 none none = .error (fnfErr 2025 (getAvailableYears dEx)) ∧
    lEx.sample_year 2025 5 none = .error (fnfErr 2025 (getAvailableYears dEx)) ∧
    lEx.get_year_info 2025 = .error (fnfErr 2025 (getAvailableYears dEx)) ∧
    lEx.get_column_names (some 2025) = .error (fnfErr 2025 (getAvailableYears dEx)) :=
  missing_year_ops_fail dEx lEx 2025 none none none none 3 5 true [] rfl (by decide)

theorem applyMask_true_cons (x : String) (m : List Bool) (xs : List String) :
    applyMask (true :: m) (x :: xs) = x :: applyMask m xs := by
  simp [applyMask, List.filter_cons]

theorem applyMask_all_true : ∀ (xs : List String),
    applyMask (xs.map (fun _ => true)) xs = xs := by
  intro xs
  induction xs with
  | nil => rfl
  | cons x xs ih => rw [List.map_cons, applyMask_true_cons, ih]

theorem applyMask_replicate_true : ∀ (xs : List String),
    applyMask (List.replicate xs.length true) xs = xs := by
  intro xs
  induction xs with
  | nil => rfl
  | cons x xs ih => rw [List.length_cons, List.replicate_succ, applyMask_true_cons, ih]

theorem headerCols_ok (l : OPTDataLoader) (y : Int) (entry : DirEntry)
    (hen : l.getFilePath y = .ok entry) :
    l.headerCols y = .ok entry.content.header := by
  simp only [OPTDataLoader.headerCols, hen, read_csv, checkUsecols]
  simp [colMask, coerceRows, mapOptionList, mkDF, applyMask_all_true, applyMask_replicate_true]

/-- C8 counterexample: in a directory whose 2020 file raw text does
not end with a newline (one newline character but two lines, header
plus one data row), get_year_info reports estimated_rows 1 as the
source line count computes, while the claim as stated (newline count
minus one) would demand 0. -/
theorem get_year_info_newline_cex :
    (OPTDataLoader.init dNoNl).bind (fun l => l.get_year_info 2020) =
      .ok ⟨2020, "data2/cleaned/cleaned_2020_all.csv", 0, 1, 1⟩ ∧
    (1 : Int) ≠ (newlineCount "A\nx" : Int) - 1 := by
  exact ⟨by decide, by decide⟩

/-- C8 (amended): get_year_info returns the file size in megabytes
rounded to two decimal places, an estimated row count equal to the
number of lines of the raw file (a trailing fragment without a final
newline counting as a line) minus one for the header, and the column
count obtained by header-only column discovery; the line count equals
the newline count exactly when the raw file is empty or ends with a
newline. -/
theorem get_year_info_spec (l : OPTDataLoader) (y : Int) (entry : DirEntry)
    (info : YearInfo)
    (hen : l.getFilePath y = .ok entry)
    (hinfo : l.get_year_info y = .ok info) :
    info.year = y ∧
    info.file_path = filePathStr l.data_dir entry.fname ∧
    info.file_size_mb_hundredths =
      roundHalfEvenDiv ((entry.raw.utf8ByteSize : Int) * 100) (1024 * 1024) ∧
    info.estimated_rows = (pyLineCount entry.raw : Int) - 1 ∧
    info.columns = entry.content.header.length ∧
    l.get_column_names (some y) = .ok entry.content.header := by
  have hcols : l.get_column_names (some y) = .ok entry.content.header := by
    simp only [OPTDataLoader.get_column_names]
    exact headerCols_ok l y entry hen
  simp only [OPTDataLoader.get_year_info, hen, hcols] at hinfo
  cases hinfo
  exact ⟨rfl, rfl, rfl, rfl, rfl, hcols⟩

/-- The record the metadata query returns for the 2020 example file. -/
def infoA : YearInfo := ⟨2020, "data/cleaned/cleaned_2020_all.csv", 0, 3, 2⟩

/-- Witness for the amended C8 at the 2020 example file: sixteen raw
bytes, four lines, two columns. -/
theorem get_year_info_spec_witness :
    infoA.year = 2020 ∧
    infoA.file_path = filePathStr lEx.data_dir entA.fname ∧
    infoA.file_size_mb_hundredths =
      roundHalfEvenDiv ((entA.raw.utf8ByteSize : Int) * 100) (1024 * 1024) ∧
    infoA.estimated_rows = (pyLineCount entA.raw : Int) - 1 ∧
    infoA.columns = entA.content.header.length ∧
    lEx.get_column_names (some 2020) = .ok entA.content.header :=
  get_year_info_spec lEx 2020 entA infoA (by decide) (by decide)

/-- C9: over a present directory containing no year files, the
available-years list is empty and get_column_names with the year
unspecified fails with the IndexError raised by indexing that empty
list, not with the FileNotFoundError of year-file resolution: the
default-year path needs a nonempty available-years list. -/
theorem default_year_empty_index_error (d : DataDir) (l : OPTDataLoader)
    (hinit : OPTDataLoader.init d = .ok l)
    (hempty : getAvailableYears d = []) :
    l.get_column_names none = .error ⟨.indexError, "list index out of range"⟩ ∧
    (⟨.indexError, "list index out of range"⟩ : PyErr).ty ≠ PyExcType.fileNotFoundError := by
  have hl := init_ok_eq d l hinit
  subst hl
  refine ⟨?_, by decide⟩
  simp [OPTDataLoader.get_column_names, hempty]

/-- Witness for C9 at the present-but-empty example directory. -/
theorem default_year_empty_index_error_witness :
    OPTDataLoader.get_column_names ⟨dEmpty, getAvailableYears dEmpty⟩ none =
      .error ⟨.indexError, "list index out of range"⟩ ∧
    (⟨.indexError, "list index out of range"⟩ : PyErr).ty ≠ PyExcType.fileNotFoundError :=
  default_year_empty_index_error dEmpty ⟨dEmpty, getAvailableYears dEmpty⟩ rfl (by decide)

/-- C10: the exception raised at construction over an absent
directory and the exception raised for a missing year file share the
exception class FileNotFoundError, so the two failure kinds are not
distinguishable by class alone, only by their message texts, which
are the two distinct format strings shown. -/
theorem error_types_coincide (d d2 : DataDir) (l : OPTDataLoader) (y : Int)
    (e1 e2 : PyErr)
    (h1 : d.present = false)
    (h2 : OPTDataLoader.init d = .error e1)
    (h3 : OPTDataLoader.init d2 = .ok l)
    (h4 : d2.entries.find? (fun en => en.fname == yearFileName y) = none)
    (h5 : l.getFilePath y = .error e2) :
    e1.ty = PyExcType.fileNotFoundError ∧
    e2.ty = PyExcType.fileNotFoundError ∧
    e1.ty = e2.ty ∧
    e1.msg = "Data directory not found: " ++ d.path ∧
    e2.msg = "No data file found for year " ++ toString y ++
      ". Available years: " ++ toString l.available_years := by
  have hl := init_ok_eq d2 l h3
  subst hl
  simp only [OPTDataLoader.init, h1, Bool.false_eq_true, if_false] at h2
  simp only [OPTDataLoader.getFilePath, h4] at h5
  cases h2
  cases h5
  exact ⟨rfl, rfl, rfl, rfl, rfl⟩

/-- Witness for C10: the absent directory against the empty example
directory missing the year 2020. -/
theorem error_types_coincide_witness :
    (⟨.fileNotFoundError, "Data directory not found: missing/cleaned"⟩ : PyErr).ty =
      PyExcType.fileNotFoundError ∧
    (fnfErr 2020 (getAvailableYears dEmpty)).ty = PyExcType.fileNotFoundError ∧
    (⟨.fileNotFoundError, "Data directory not found: missing/cleaned"⟩ : PyErr).ty =
      (fnfErr 2020 (getAvailableYears dEmpty)).ty ∧
    (⟨.fileNotFoundError, "Data directory not found: missing/cleaned"⟩ : PyErr).msg =
      "Data directory not found: " ++ dAbsent.path ∧
    (fnfErr 2020 (getAvailableYears dEmpty)).msg =
      "No data file found for year " ++ toString (2020 : Int) ++ ". Available years: " ++
        toString (OPTDataLoader.available_years ⟨dEmpty, getAvailableYears dEmpty⟩) :=
  error_types_coincide dAbsent dEmpty ⟨dEmpty, getAvailableYears dEmpty⟩ 2020
    ⟨.fileNotFoundError, "Data directory not found: missing/cleaned"⟩
    (fnfErr 2020 (getAvailableYears dEmpty)) rfl (by decide) rfl (by decide) rfl
